import Mathlib

/-!
Verification of the Magistrala IoT agent's terminal-session manager
(`pkg/terminal`) and bootstrap procedure (`pkg/bootstrap`), shallowly
embedded from the Go source.

Durations are Go `time.Duration` values: signed 64-bit counts of
nanoseconds, modelled as `Int`.  `second` is `time.Duration(1 * time.Second)`.
-/

namespace Terminal

/-- Go `time.Duration`: nanoseconds as a signed integer. -/
abbrev Duration := Int

/-- `second = time.Duration(1 * time.Second)` from the source. -/
def second : Duration := 1000000000

/-- The mutable state of a `term` session (struct `term` in the source),
restricted to the fields the claims are about: `uuid`, `topic`
(set to `term/<uuid>` by `NewSession`), the countdown `timeout`, the
configured `resetTimeout`, whether `timer.Stop()` has been called,
how many times `done <- true` has been executed, and the byte chunks
written to the pty's input side by `Send`. -/
structure Term where
  uuid : String
  topic : String
  timeout : Duration
  resetTimeout : Duration
  timerStopped : Bool
  doneCount : Nat
  ptmxInput : List String
deriving Repr, DecidableEq

/-- `func (t *term) resetCounter(timeout time.Duration)` — under the mutex:
if `timeout > 0` set `t.timeout = timeout`, otherwise do nothing. -/
def resetCounter (t : Term) (timeout : Duration) : Term :=
  if timeout > 0 then { t with timeout := timeout } else t

/-- `func (t *term) decrementCounter()` — under the mutex:
`t.timeout -= second`; if the result `== 0`, send on `done`
(counted by `doneCount`) and stop the ticker. -/
def decrementCounter (t : Term) : Term :=
  let t' := { t with timeout := t.timeout - second }
  if t'.timeout = 0 then
    { t' with doneCount := t'.doneCount + 1, timerStopped := true }
  else t'

/-- Serialized events on a session's countdown: a ticker tick
(running `decrementCounter`) or an output write (running
`resetCounter(t.resetTimeout)`, the first statement of `Write`).
The session mutex makes each event atomic, so a concurrent execution
is a sequence of these events. -/
inductive SessionEv
  | tick
  | outWrite
deriving Repr, DecidableEq

/-- One serialized event applied to the session state. -/
def stepEv (t : Term) : SessionEv → Term
  | .tick => decrementCounter t
  | .outWrite => resetCounter t t.resetTimeout

/-- Run a serialized sequence of countdown events. -/
def run (t : Term) : List SessionEv → Term
  | [] => t
  | e :: es => run (stepEv t e) es

/-- Admissible event sequences, with `b` the number of ticks that may
still be received after the ticker has been stopped.  `time.Ticker`
delivers on a channel with one buffered slot, and `Ticker.Stop` neither
closes nor drains that channel: a tick sent before `Stop` (e.g. while
`decrementCounter` is blocked on `t.done <- true` holding the mutex)
is still received by the `for range t.timer.C` goroutine afterwards.
Once the ticker is stopped it sends no further ticks, so at most the
one buffered tick arrives post-stop.  Output writes may occur at any
time. -/
def admAux (t : Term) (b : Nat) : List SessionEv → Bool
  | [] => true
  | e :: es =>
    match e with
    | SessionEv.tick =>
      if t.timerStopped then
        decide (0 < b) && admAux (stepEv t SessionEv.tick) (b - 1) es
      else
        admAux (stepEv t SessionEv.tick) b es
    | SessionEv.outWrite => admAux (stepEv t SessionEv.outWrite) b es

/-- Admissible event sequences from a live session: ticks flow freely
while the ticker runs, and at most one buffered tick is received after
`t.timer.Stop()` (see `admAux`). -/
def adm (t : Term) (es : List SessionEv) : Bool :=
  admAux t 1 es

/-- The session state built by `NewSession` before the pty spawn:
countdown and reset value both the configured timeout, topic
`term/<uuid>`, ticker running, no `done` signal sent yet. -/
def mkTerm (uuid : String) (timeout : Duration) : Term :=
  { uuid := uuid
    topic := "term/" ++ uuid
    timeout := timeout
    resetTimeout := timeout
    timerStopped := false
    doneCount := 0
    ptmxInput := [] }

/-- Countdown invariant for a session configured with timeout `d`,
carried along the remaining post-stop tick budget `b`: the reset value
stays `d`; before the first stop nothing has fired and the buffered
tick is unconsumed; after a stop at least one signal was sent; the
signal count plus remaining budget never exceeds two; a second signal
is only possible when the configured timeout is exactly one second;
and while the buffered tick is still pending after a stop, the
countdown is either `0` (as the firing decrement left it) or `d`
(re-armed by an output write). -/
def CInv (d : Duration) (b : Nat) (t : Term) : Prop :=
  t.resetTimeout = d ∧
  (t.timerStopped = false → t.doneCount = 0 ∧ b = 1) ∧
  (t.timerStopped = true → 1 ≤ t.doneCount) ∧
  t.doneCount + b ≤ 2 ∧
  (t.doneCount = 2 → d = second) ∧
  (t.timerStopped = true → b = 1 → (t.timeout = 0 ∨ t.timeout = d))

theorem cInv_outWrite (d : Duration) (b : Nat) (t : Term)
    (h : CInv d b t) : CInv d b (stepEv t SessionEv.outWrite) := by
  obtain ⟨hr, hns, hst, hsum, h2, htm⟩ := h
  simp only [stepEv, resetCounter]
  split
  next hpos =>
    refine ⟨hr, hns, hst, hsum, h2, ?_⟩
    intro _ _
    right
    simpa using hr
  next hpos => exact ⟨hr, hns, hst, hsum, h2, htm⟩

theorem cInv_tick_running (d : Duration) (b : Nat) (t : Term)
    (hs : t.timerStopped = false) (h : CInv d b t) :
    CInv d b (stepEv t SessionEv.tick) := by
  obtain ⟨hr, hns, hst, hsum, h2, htm⟩ := h
  obtain ⟨hd0, hb1⟩ := hns hs
  simp only [stepEv, decrementCounter]
  split
  next h0 =>
    refine ⟨hr, ?_, ?_, ?_, ?_, ?_⟩
    · intro hc
      simp at hc
    · intro _
      simp [hd0]
    · simp only
      omega
    · intro hc
      simp only [hd0] at hc
      omega
    · intro _ _
      left
      simpa using h0
  next h0 =>
    refine ⟨hr, ?_, ?_, ?_, ?_, ?_⟩
    · intro _
      exact ⟨hd0, hb1⟩
    · intro hc
      simp only at hc
      rw [hs] at hc
      exact absurd hc Bool.false_ne_true
    · simp only
      omega
    · intro hc
      simp only [hd0] at hc
      omega
    · intro hc
      simp only at hc
      rw [hs] at hc
      exact absurd hc Bool.false_ne_true

theorem cInv_tick_stopped (d : Duration) (b : Nat) (t : Term)
    (hs : t.timerStopped = true) (hb : 0 < b) (h : CInv d b t) :
    CInv d (b - 1) (stepEv t SessionEv.tick) := by
  obtain ⟨hr, hns, hst, hsum, h2, htm⟩ := h
  have hd1 : t.doneCount = 1 := by
    have := hst hs
    omega
  have hb1 : b = 1 := by omega
  have htv : t.timeout = 0 ∨ t.timeout = d := htm hs hb1
  simp only [stepEv, decrementCounter]
  split
  next h0 =>
    have h0' : t.timeout - second = 0 := h0
    have hdsec : d = second := by
      rcases htv with hv | hv
      · rw [hv] at h0'
        norm_num [second] at h0'
      · rw [hv] at h0'
        exact sub_eq_zero.mp h0'
    refine ⟨hr, ?_, ?_, ?_, ?_, ?_⟩
    · intro hc
      simp at hc
    · intro _
      simp only
      omega
    · simp only
      omega
    · intro _
      exact hdsec
    · intro _ hc
      omega
  next h0 =>
    refine ⟨hr, ?_, ?_, ?_, ?_, ?_⟩
    · intro hc
      simp only at hc
      rw [hs] at hc
      simp at hc
    · intro _
      simp only
      omega
    · simp only
      omega
    · intro hc
      simp only [hd1] at hc
      omega
    · intro _ hc
      omega

theorem cInv_run (d : Duration) (es : List SessionEv) :
    ∀ (t : Term) (b : Nat), admAux t b es = true → CInv d b t →
      ∃ b', CInv d b' (run t es) := by
  induction es with
  | nil => exact fun t b _ h => ⟨b, h⟩
  | cons e es ih =>
    intro t b hadm hinv
    cases e with
    | outWrite =>
      simp only [admAux] at hadm
      exact ih (stepEv t SessionEv.outWrite) b hadm (cInv_outWrite d b t hinv)
    | tick =>
      simp only [admAux] at hadm
      by_cases hs : t.timerStopped = true
      · rw [if_pos hs] at hadm
        simp only [Bool.and_eq_true, decide_eq_true_eq] at hadm
        exact ih (stepEv t SessionEv.tick) (b - 1) hadm.2
          (cInv_tick_stopped d b t hs hadm.1 hinv)
      · have hs' : t.timerStopped = false := by simpa using hs
        rw [if_neg hs] at hadm
        exact ih (stepEv t SessionEv.tick) b hadm
          (cInv_tick_running d b t hs' hinv)

theorem cInv_mkTerm (uuid : String) (d : Duration) : CInv d 1 (mkTerm uuid d) := by
  refine ⟨rfl, fun _ => ⟨rfl, rfl⟩, ?_, ?_, ?_, ?_⟩
  · intro hc
    simp [mkTerm] at hc
  · simp [mkTerm]
  · intro hc
    simp [mkTerm] at hc
  · intro hc
    simp [mkTerm] at hc

/-- `doneCount` never decreases along an event. -/
theorem doneCount_mono_step (t : Term) (e : SessionEv) :
    t.doneCount ≤ (stepEv t e).doneCount := by
  cases e with
  | tick =>
    simp only [stepEv, decrementCounter]
    split <;> simp
  | outWrite =>
    simp only [stepEv, resetCounter]
    split <;> simp

theorem doneCount_mono_run (t : Term) (es : List SessionEv) :
    t.doneCount ≤ (run t es).doneCount := by
  induction es generalizing t with
  | nil => exact Nat.le_refl _
  | cons e es ih =>
    exact Nat.le_trans (doneCount_mono_step t e) (ih (stepEv t e))

/-- Invariant for sessions whose configured timeout is a positive whole
multiple of one second: while the ticker runs the countdown is a positive
multiple of `second` (so the `== 0` test cannot be skipped over), and the
configured reset value stays a positive multiple. -/
def WholeInv (t : Term) : Prop :=
  (0 < t.resetTimeout ∧ second ∣ t.resetTimeout) ∧
  (t.timerStopped = false → 0 < t.timeout ∧ second ∣ t.timeout)

theorem wholeInv_step (t : Term) (e : SessionEv)
    (h : WholeInv t) : WholeInv (stepEv t e) := by
  obtain ⟨hreset, hrun⟩ := h
  cases e with
  | tick =>
    by_cases hs : t.timerStopped = false
    · obtain ⟨hpos, hdvd⟩ := hrun hs
      simp only [stepEv, decrementCounter]
      split
      next h0 =>
        refine ⟨hreset, ?_⟩
        intro hc
        simp at hc
      next h0 =>
        refine ⟨hreset, ?_⟩
        intro hc
        simp only at h0 hc ⊢
        constructor
        · obtain ⟨k, hk⟩ := hdvd
          have hsec : (0:Int) < second := by decide
          have hkpos : 0 < k := by
            by_contra hneg
            push_neg at hneg
            nlinarith
          have hk1 : k ≠ 1 := by
            intro h1
            subst h1
            simp at hk
            rw [hk] at h0
            simp at h0
          have : (2:Int) ≤ k := by omega
          rw [hk]
          nlinarith
        · obtain ⟨k, hk⟩ := hdvd
          exact ⟨k - 1, by rw [hk]; ring⟩
    · have hs' : t.timerStopped = true := by simpa using hs
      simp only [stepEv, decrementCounter]
      split
      next h0 =>
        refine ⟨hreset, ?_⟩
        intro hc
        simp at hc
      next h0 =>
        refine ⟨hreset, ?_⟩
        intro hc
        simp only at hc
        rw [hs'] at hc
        simp at hc
  | outWrite =>
    simp only [stepEv, resetCounter]
    split
    next hpos => exact ⟨hreset, fun _ => ⟨hreset.1, hreset.2⟩⟩
    next hpos => exact ⟨hreset, hrun⟩

theorem wholeInv_run (t : Term) (es : List SessionEv)
    (h : WholeInv t) : WholeInv (run t es) := by
  induction es generalizing t with
  | nil => exact h
  | cons e es ih => exact ih (stepEv t e) (wholeInv_step t e h)

end Terminal

namespace Bootstrap

/-- `strconv.ParseUint(s, 10, 64)`: decimal digits only, non-empty,
no sign, value below `2^64`; anything else is an error (`none`). -/
def parseUint (s : String) : Option Nat :=
  if s.length > 0 && s.toList.all Char.isDigit then
    let v := s.toList.foldl (fun acc c => acc * 10 + (c.toNat - 48)) 0
    if v < 2 ^ 64 then some v else none
  else none

/-- The parameters for bootstrapping (`bootstrap.Config`), restricted
to the fields Bootstrap reads. -/
structure Config where
  url : String
  id : String
  key : String
  retries : String
  retryDelaySec : String
  skipTLS : Bool
deriving Repr, DecidableEq

/-- A bootstrap channel: its ID and its `Metadata["type"]` entry. -/
structure Channel where
  chanId : String
  metaType : String
deriving Repr, DecidableEq, Inhabited

/-- `deviceConfig` as returned by `getConfig`, restricted to the fields
`Bootstrap` reads (the nested service configs are opaque here). -/
structure DeviceConfig where
  mainfluxID : String
  mainfluxKey : String
  mainfluxChannels : List Channel
  clientKey : String
  clientCert : String
  caCert : String
deriving Repr, DecidableEq

/-- The agent configuration assembled by `Bootstrap` before
`agent.SaveConfig`, restricted to the fields derived from the device
config (the opaque nested service configs are dropped). -/
structure AgentConf where
  ctrl : String
  data : String
  mqttUsername : String
  mqttPassword : String
  mqttClientCert : String
  mqttClientKey : String
  mqttCaCert : String
  file : String
deriving Repr, DecidableEq

/-- Errors `Bootstrap` can return (`none` in `BootOut.err` is a nil
return). -/
inductive BootErr
  | invalidRetries
  | invalidRetryDelay
  | malformedEntity
  | saveFailed (e : String)
deriving Repr, DecidableEq

/-- Outcome of the retry loop: a successfully fetched device config, or
exhaustion (the `i == retries-1` branch that returns nil). -/
inductive LoopRes
  | success (dc : DeviceConfig)
  | exhausted
deriving Repr, DecidableEq

/-- The `for i := 0; i < retries; i++` loop of `Bootstrap`, with the
outcome of attempt `i` given by `fetch i`.  Returns the loop result,
the number of `getConfig` calls made, and the number of
`time.Sleep(retryDelaySec)` calls made.  On a failed attempt the code
sleeps, then returns nil if it was the last attempt. -/
def bootLoop (fetch : Nat → Except String DeviceConfig) :
    Nat → Nat → LoopRes × Nat × Nat
  | _, 0 => (.exhausted, 0, 0)
  | i, r + 1 =>
    match fetch i with
    | .ok dc => (.success dc, 1, 0)
    | .error _ =>
      if r = 0 then (.exhausted, 1, 1)
      else
        let (res, a, s) := bootLoop fetch (i + 1) r
        (res, a + 1, s + 1)

/-- Observable outcome of `func Bootstrap(cfg, logger, file) error`:
the returned error (`none` = nil), the number of `getConfig` attempts,
the number of fixed-delay sleeps, the agent configuration passed to
`agent.SaveConfig` (`none` = never called), whether `saveExportConfig`
ran, and whether the "Retries exhausted" warning was logged. -/
structure BootOut where
  err : Option BootErr
  fetchAttempts : Nat
  sleeps : Nat
  savedAgent : Option AgentConf
  exportSaved : Bool
  exhaustedWarned : Bool
deriving Repr, DecidableEq

/-- Channel selection and config assembly from the source (lines after
the `len(dc.MainfluxChannels) < 2` check): channel 0 is control and
channel 1 data, swapped when channel 0's metadata type is `"data"`;
MQTT credentials and certificates are taken from the device config. -/
def buildAgentConf (dc : DeviceConfig) (file : String) : AgentConf :=
  let c0 := dc.mainfluxChannels.getD 0 default
  let c1 := dc.mainfluxChannels.getD 1 default
  let ctrl := if c0.metaType = "data" then c1.chanId else c0.chanId
  let data := if c0.metaType = "data" then c0.chanId else c1.chanId
  { ctrl := ctrl
    data := data
    mqttUsername := dc.mainfluxID
    mqttPassword := dc.mainfluxKey
    mqttClientCert := dc.clientCert
    mqttClientKey := dc.clientKey
    mqttCaCert := dc.caCert
    file := file }

/-- Go's `int(retries)` conversion in the loop bound
`for i := 0; i < int(retries); i++`: the `uint64` is reinterpreted as a
signed 64-bit integer (two's-complement wrap), so values at or above
`2^63` become negative. -/
def int64cast (n : Nat) : Int :=
  if n < 2 ^ 63 then (n : Int) else (n : Int) - 2 ^ 64

/-- The zero value `deviceConfig{}` that `dc` holds when the retry loop
body never executes. -/
def dcZero : DeviceConfig :=
  { mainfluxID := "", mainfluxKey := "", mainfluxChannels := [], clientKey := "", clientCert := "", caCert := "" }

/-- The code after the retry loop: reject a device config with fewer
than two channels as `ErrMalformedEntity` before anything is persisted;
otherwise assemble the agent config, save the export config, and return
`agent.SaveConfig`'s result.  `a` and `s` are the fetch attempts and
sleeps already performed. -/
def afterLoop (dc : DeviceConfig) (file : String) (saveAgentErr : Option String)
    (a s : Nat) : BootOut :=
  if dc.mainfluxChannels.length < 2 then
    { err := some .malformedEntity, fetchAttempts := a, sleeps := s
      savedAgent := none, exportSaved := false, exhaustedWarned := false }
  else
    let c := buildAgentConf dc file
    { err := saveAgentErr.map .saveFailed, fetchAttempts := a, sleeps := s
      savedAgent := some c, exportSaved := true, exhaustedWarned := false }

/-- `func Bootstrap(cfg Config, logger *slog.Logger, file string) error`
from the source.  `fetch i` is the outcome of the `i`-th `getConfig`
call; `saveAgentErr` the outcome of `agent.SaveConfig`.  Steps, in
source order: parse `cfg.Retries` as a `uint64` (parse failure is an
error); zero retries returns nil immediately; parse `cfg.RetryDelaySec`
(parse failure is an error); run
`for i := 0; i < int(retries); i++` — when `int(retries)` wraps to a
non-positive value the loop body never executes and `dc` stays the zero
value `deviceConfig{}`, otherwise the loop fetches until success
(falling through to the post-loop code) or exhausts its attempts
(logging a warning and returning nil); the post-loop code is
`afterLoop`. -/
def Bootstrap (cfg : Config) (file : String)
    (fetch : Nat → Except String DeviceConfig)
    (saveAgentErr : Option String) : BootOut :=
  match parseUint cfg.retries with
  | none =>
    { err := some .invalidRetries, fetchAttempts := 0, sleeps := 0
      savedAgent := none, exportSaved := false, exhaustedWarned := false }
  | some retries =>
    if retries = 0 then
      { err := none, fetchAttempts := 0, sleeps := 0
        savedAgent := none, exportSaved := false, exhaustedWarned := false }
    else
      match parseUint cfg.retryDelaySec with
      | none =>
        { err := some .invalidRetryDelay, fetchAttempts := 0, sleeps := 0
          savedAgent := none, exportSaved := false, exhaustedWarned := false }
      | some _ =>
        if int64cast retries ≤ 0 then
          afterLoop dcZero file saveAgentErr 0 0
        else
          match bootLoop fetch 0 (int64cast retries).toNat with
          | (.exhausted, a, s) =>
            { err := none, fetchAttempts := a, sleeps := s
              savedAgent := none, exportSaved := false, exhaustedWarned := true }
          | (.success dc, a, s) => afterLoop dc file saveAgentErr a s

end Bootstrap

namespace Encoder

/-- A measurement record `{baseName, name, time, stringValue}` as in the
spec's data model (the wire format's optional numeric/boolean/unit fields
are unset on the encode path and irrelevant to the claims). -/
structure Record where
  bn : String
  n : String
  t : Int
  vs : String
deriving Repr, DecidableEq

/-- Modelled from the spec: `encoder.EncodeSenML` (the `encoder` package is
not under `src/`; only its call sites are).  Per §4.1, `Encode(id, name,
value)` builds a one-record sequence with base name `id`, name `name`,
time the current wall clock (passed here as `now`), and string value
`value`; the payload is the canonical wire form of that ordered array of
records, modelled at the structural level. -/
def EncodeSenML (id name value : String) (now : Int) : List Record :=
  [{ bn := id, n := name, t := now, vs := value }]

/-- Modelled from the spec: the codec's `Decode` (the `encoder` package is
not under `src/`).  Per §4.1 it parses the canonical wire payload back
into the ordered sequence of records, tolerating absent optional fields;
on the structural model of the payload this recovers the records as
written. -/
def DecodeSenML (payload : List Record) : List Record :=
  payload

end Encoder

namespace Terminal

open Encoder

theorem run_append (t : Term) (a b : List SessionEv) :
    run t (a ++ b) = run (run t a) b := by
  induction a generalizing t with
  | nil => rfl
  | cons e a ih => simpa [run] using ih (stepEv t e)

/-- Result of `func (t *term) Write(p []byte) (int, error)`: the session
state after the call, the returned byte count, the returned error
(`none` = nil), and the publish calls attempted as `(topic, payload)`
pairs. -/
structure WriteOut where
  st : Term
  n : Nat
  err : Option String
  pubs : List (String × List Record)
deriving Repr, DecidableEq

/-- `func (t *term) Write(p []byte) (int, error)` from the source:
first `t.resetCounter(t.resetTimeout)`, then `n := len(p)`, then
`encoder.EncodeSenML(t.uuid, terminal, string(p))` (`terminal = "term"`;
its possible failure is injected as `encErr`), then
`t.publish(t.topic, string(payload))` (outcome given by the abstract
publish function `pub`); each failure returns `(n, err)`, success
returns `(n, nil)`. -/
def Write (t : Term) (p : String) (now : Int) (encErr : Option String)
    (pub : String → List Record → Option String) : WriteOut :=
  let t' := resetCounter t t.resetTimeout
  let n := p.length
  match encErr with
  | some e => { st := t', n := n, err := some e, pubs := [] }
  | none =>
    let payload := EncodeSenML t'.uuid "term" p now
    match pub t'.topic payload with
    | some e => { st := t', n := n, err := some e, pubs := [(t'.topic, payload)] }
    | none => { st := t', n := n, err := none, pubs := [(t'.topic, payload)] }

/-- `func (t *term) Send(p []byte) error` from the source: copies `p`
into the pty's input side (`io.Copy(t.ptmx, bytes.NewReader(p))`);
an I/O failure (injected as `ioErr`) is returned as a session error.
No other session field is touched. -/
def Send (t : Term) (p : String) (ioErr : Option String) : Term × Option String :=
  match ioErr with
  | some e => (t, some e)
  | none => ({ t with ptmxInput := t.ptmxInput ++ [p] }, none)

/-- Result of `func NewSession(uuid, timeout, publish, logger) (Session, error)`:
the returned session value (`none` would be a nil Session, which the
source never returns), the returned error, and whether the output-copy
goroutine and the countdown ticker were started. -/
structure NewSessionOut where
  sess : Option Term
  err : Option String
  ptmxSet : Bool
  copyStarted : Bool
  timerStarted : Bool
deriving Repr, DecidableEq

/-- `func NewSession(...)` from the source: builds the `term` value
(topic `term/<uuid>`, countdown and reset value the configured timeout),
then spawns `bash` under a pty (failure injected as `spawnErr`).  On
spawn failure it returns the already-built `t` together with the error,
having started neither the copy goroutine nor the ticker; on success it
stores the pty, starts the copy goroutine and the 1-second ticker, and
returns `(t, nil)`. -/
def NewSession (uuid : String) (timeout : Duration) (spawnErr : Option String) :
    NewSessionOut :=
  let t := mkTerm uuid timeout
  match spawnErr with
  | some e =>
    { sess := some t, err := some e, ptmxSet := false
      copyStarted := false, timerStarted := false }
  | none =>
    { sess := some t, err := none, ptmxSet := true
      copyStarted := true, timerStarted := true }

end Terminal

open Terminal Encoder Bootstrap

/-- C1: the claim fails on the code in both directions.  (a) A session
whose configured timeout is 1.5 seconds (not a whole multiple of the
one-second tick) decrements 1.5s → 0.5s → −0.5s: the countdown crosses
zero but the `timeout == 0` equality test never fires, so `doneSignal`
is never emitted and the ticker is never stopped.  (b) A session with
a 1-second timeout can emit `doneSignal` twice: the first tick fires it
and stops the ticker, but `Ticker.Stop` does not drain the one-slot
ticker channel, so one buffered pre-stop tick is still received; an
output write in between re-arms the countdown to 1s, and that buffered
tick decrements it to exactly 0 again, firing `doneSignal` a second
time. -/
theorem terminal_c1_counterexample :
    (adm (mkTerm "u" 1500000000) [SessionEv.tick, SessionEv.tick] = true ∧
     (run (mkTerm "u" 1500000000) [SessionEv.tick, SessionEv.tick]).timeout < 0 ∧
     (run (mkTerm "u" 1500000000) [SessionEv.tick, SessionEv.tick]).doneCount = 0 ∧
     (run (mkTerm "u" 1500000000) [SessionEv.tick, SessionEv.tick]).timerStopped = false) ∧
    (adm (mkTerm "v" second) [SessionEv.tick, SessionEv.outWrite, SessionEv.tick] = true ∧
     (run (mkTerm "v" second)
       [SessionEv.tick, SessionEv.outWrite, SessionEv.tick]).doneCount = 2) := by
  refine ⟨⟨rfl, by decide, rfl, rfl⟩, rfl, rfl⟩

/-- C1 (amended): resets and decrements on a session's countdown
serialize through the session mutex (modelled as atomic events), but
the exactly-once guarantee fails in both directions.  What does hold,
in every admissible serialized execution (including the one buffered
tick that `Ticker.Stop` leaves deliverable): `doneSignal` is emitted at
most twice, and at most once whenever the configured timeout differs
from one second — a second emission needs the buffered post-stop tick
to meet a countdown re-armed to exactly one second.  When the
configured timeout is a positive whole multiple of one second, the
ticker never stops without at least one emission, and while the ticker
still runs the countdown is strictly positive with nothing emitted
(the countdown cannot skip past zero unobserved).  For timeouts that
are not whole multiples of one second the countdown skips zero and
`doneSignal` is never emitted. -/
theorem terminal_c1_done_once (uuid : String) (d : Duration) (es : List SessionEv)
    (hadm : adm (mkTerm uuid d) es = true) :
    (run (mkTerm uuid d) es).doneCount ≤ 2 ∧
    (d ≠ second → (run (mkTerm uuid d) es).doneCount ≤ 1) ∧
    (0 < d → second ∣ d →
      ((run (mkTerm uuid d) es).timerStopped = true →
        1 ≤ (run (mkTerm uuid d) es).doneCount) ∧
      ((run (mkTerm uuid d) es).timerStopped = false →
        (run (mkTerm uuid d) es).doneCount = 0 ∧
        0 < (run (mkTerm uuid d) es).timeout)) := by
  obtain ⟨b', hinv⟩ := cInv_run d es (mkTerm uuid d) 1 hadm (cInv_mkTerm uuid d)
  obtain ⟨hr, hns, hst, hsum, h2, htm⟩ := hinv
  refine ⟨by omega, ?_, ?_⟩
  · intro hd
    by_cases h22 : (run (mkTerm uuid d) es).doneCount = 2
    · exact absurd (h2 h22) hd
    · omega
  · intro hpos hdvd
    refine ⟨hst, ?_⟩
    intro hs
    refine ⟨(hns hs).1, ?_⟩
    have hw : WholeInv (mkTerm uuid d) := by
      refine ⟨⟨hpos, hdvd⟩, fun _ => ⟨hpos, hdvd⟩⟩
    have hw' := wholeInv_run (mkTerm uuid d) es hw
    exact (hw'.2 hs).1

theorem terminal_c1_done_once_witness :
    (run (mkTerm "u" 3000000000) [SessionEv.tick]).doneCount ≤ 2 ∧
    (run (mkTerm "u" 3000000000) [SessionEv.tick]).doneCount ≤ 1 ∧
    ((run (mkTerm "u" 3000000000) [SessionEv.tick]).doneCount = 0 ∧
     0 < (run (mkTerm "u" 3000000000) [SessionEv.tick]).timeout) :=
  ⟨(terminal_c1_done_once "u" 3000000000 [SessionEv.tick] (by decide)).1,
   (terminal_c1_done_once "u" 3000000000 [SessionEv.tick] (by decide)).2.1 (by decide),
   ((terminal_c1_done_once "u" 3000000000 [SessionEv.tick] (by decide)).2.2
      (by decide) ⟨3, by decide⟩).2 (by decide)⟩

/-- C2: a terminal session created with timeout 3 seconds (3 tick units)
that receives no output activity has emitted no `doneSignal` after fewer
than 3 decrement ticks, emits it exactly once at the 3rd tick, and in
every admissible continuation of events it is never emitted again
(`doneCount` stays exactly 1). -/
theorem terminal_c2_timeout3 (uuid : String) :
    (∀ k, k < 3 →
      (run (mkTerm uuid (3 * second)) (List.replicate k SessionEv.tick)).doneCount = 0) ∧
    (run (mkTerm uuid (3 * second)) (List.replicate 3 SessionEv.tick)).doneCount = 1 ∧
    (∀ es, adm (mkTerm uuid (3 * second)) (List.replicate 3 SessionEv.tick ++ es) = true →
      (run (mkTerm uuid (3 * second)) (List.replicate 3 SessionEv.tick ++ es)).doneCount = 1) := by
  have h3 : run (mkTerm uuid (3 * second)) (List.replicate 3 SessionEv.tick) =
      { uuid := uuid, topic := "term/" ++ uuid, timeout := 0,
        resetTimeout := 3 * second, timerStopped := true, doneCount := 1,
        ptmxInput := [] } := rfl
  refine ⟨?_, ?_, ?_⟩
  · intro k hk
    interval_cases k <;> rfl
  · rw [h3]
  · intro es hadm
    obtain ⟨b', hinv⟩ := cInv_run (3 * second)
      (List.replicate 3 SessionEv.tick ++ es) (mkTerm uuid (3 * second)) 1 hadm
      (cInv_mkTerm uuid (3 * second))
    obtain ⟨hr, hns, hst, hsum, h2, htm⟩ := hinv
    have hd3 : (run (mkTerm uuid (3 * second))
        (List.replicate 3 SessionEv.tick)).doneCount = 1 := by
      rw [h3]
    have hmono := doneCount_mono_run
      (run (mkTerm uuid (3 * second)) (List.replicate 3 SessionEv.tick)) es
    rw [← run_append] at hmono
    rw [hd3] at hmono
    by_cases hfin : (run (mkTerm uuid (3 * second))
        (List.replicate 3 SessionEv.tick ++ es)).doneCount = 2
    · exact absurd (h2 hfin) (by decide)
    · omega

theorem terminal_c2_timeout3_witness :
    (run (mkTerm "u" (3 * second)) (List.replicate 2 SessionEv.tick)).doneCount = 0 ∧
    (run (mkTerm "u" (3 * second)) (List.replicate 3 SessionEv.tick)).doneCount = 1 ∧
    (run (mkTerm "u" (3 * second))
      (List.replicate 3 SessionEv.tick ++ [SessionEv.outWrite])).doneCount = 1 :=
  ⟨(terminal_c2_timeout3 "u").1 2 (by decide),
   (terminal_c2_timeout3 "u").2.1,
   (terminal_c2_timeout3 "u").2.2 [SessionEv.outWrite] (by decide)⟩

/-- C3: the claim that "the countdown is reset to its configured value
only upon successful delivery of an output chunk" is false on the code:
`Write` calls `t.resetCounter(t.resetTimeout)` as its first statement,
before encoding or publishing.  Concretely: a session created with
timeout 3s whose countdown has ticked down to 1s, given a `Write` whose
publish fails, still has its countdown reset to 3s while `Write`
returns that publish error. -/
theorem terminal_c3_counterexample :
    (run (mkTerm "u" (3 * second)) [SessionEv.tick, SessionEv.tick]).timeout = second ∧
    (Write (run (mkTerm "u" (3 * second)) [SessionEv.tick, SessionEv.tick])
      "x" 0 none (fun _ _ => some "publish failed")).err = some "publish failed" ∧
    (Write (run (mkTerm "u" (3 * second)) [SessionEv.tick, SessionEv.tick])
      "x" 0 none (fun _ _ => some "publish failed")).st.timeout = 3 * second := by
  refine ⟨by decide, rfl, by decide⟩

/-- C3 (amended): `Send` writes the given bytes to the pty input and
leaves the countdown (and the done signal) unchanged — input never
extends the session's life — while `Write` resets the countdown to the
configured value at the start of every output-write attempt, regardless
of whether the encode and publish succeed (not only on successful
delivery). -/
theorem terminal_c3_send_write_frame (t : Term) (p : String) (ioe : Option String)
    (now : Int) (encErr : Option String)
    (pub : String → List Encoder.Record → Option String) :
    (Send t p ioe).1.timeout = t.timeout ∧
    (Send t p ioe).1.doneCount = t.doneCount ∧
    (ioe = none → (Send t p ioe).1.ptmxInput = t.ptmxInput ++ [p]) ∧
    (Write t p now encErr pub).st.timeout =
      (if 0 < t.resetTimeout then t.resetTimeout else t.timeout) := by
  refine ⟨?_, ?_, ?_, ?_⟩
  · cases ioe <;> rfl
  · cases ioe <;> rfl
  · intro h
    subst h
    rfl
  · have hst : (Write t p now encErr pub).st = resetCounter t t.resetTimeout := by
      cases encErr with
      | some e => rfl
      | none =>
        simp only [Write]
        cases hp : pub (resetCounter t t.resetTimeout).topic
            (EncodeSenML (resetCounter t t.resetTimeout).uuid "term" p now) with
        | some e => simp [hp]
        | none => simp [hp]
    rw [hst]
    unfold resetCounter
    split <;> rfl

theorem terminal_c3_send_write_frame_witness :
    (Send (mkTerm "u" (3 * second)) "ls" none).1.timeout = (mkTerm "u" (3 * second)).timeout ∧
    (Send (mkTerm "u" (3 * second)) "ls" none).1.ptmxInput =
      (mkTerm "u" (3 * second)).ptmxInput ++ ["ls"] :=
  ⟨(terminal_c3_send_write_frame (mkTerm "u" (3 * second)) "ls" none 0 none
      (fun _ _ => none)).1,
   (terminal_c3_send_write_frame (mkTerm "u" (3 * second)) "ls" none 0 none
      (fun _ _ => none)).2.2.1 rfl⟩

/-- C4: the claim that on pty spawn failure "no partially-initialized
session is left visible to the caller" is false on the code: `NewSession`
returns the already-built `term` value together with the error
(`return t, errors.New(err.Error())`), not a nil session — the caller
receives the partially-initialized session (pty unset, no copy task, no
timer) alongside the error. -/
theorem terminal_c4_counterexample :
    (NewSession "u" (30 * second) (some "fork/exec: no such file")).err =
      some "fork/exec: no such file" ∧
    (NewSession "u" (30 * second) (some "fork/exec: no such file")).sess =
      some (mkTerm "u" (30 * second)) ∧
    (NewSession "u" (30 * second) (some "fork/exec: no such file")).ptmxSet = false := by
  refine ⟨rfl, rfl, rfl⟩

/-- C4 (amended): if spawning the pty-backed shell fails, `NewSession`
surfaces the error and starts nothing — no pty handle is stored, the
output-copy task is not started, and the countdown ticker is not
started — but the partially-initialized session value itself is
returned to the caller alongside the error rather than being withheld
(callers must consult the error, not the session value). -/
theorem terminal_c4_spawn_failure (uuid : String) (d : Duration) (e : String) :
    (NewSession uuid d (some e)).err = some e ∧
    (NewSession uuid d (some e)).ptmxSet = false ∧
    (NewSession uuid d (some e)).copyStarted = false ∧
    (NewSession uuid d (some e)).timerStarted = false ∧
    (NewSession uuid d (some e)).sess = some (mkTerm uuid d) := by
  refine ⟨rfl, rfl, rfl, rfl, rfl⟩

/-- C5: for all `{id, name, value}` triples (and any encoding time),
decoding the output of `Encode` yields exactly one record whose
effective key — the concatenation of `baseName` and `name` — equals
`id + name` and whose string value equals `value`.  (Codec modelled
from the spec: the `encoder` package is not under `src/`.) -/
theorem encoder_c5_roundtrip (id nm value : String) (now : Int) :
    ∃ r : Record, DecodeSenML (EncodeSenML id nm value now) = [r] ∧
      r.bn ++ r.n = id ++ nm ∧ r.vs = value :=
  ⟨{ bn := id, n := nm, t := now, vs := value }, rfl, rfl, rfl⟩

/-- C6: for a terminal session whose topic field is `term/<uuid>` (as
`NewSession` sets it), every output chunk `p` written through `Write`
is published on the topic `term/<uuid>`, wrapped as a one-record
measurement payload whose base name is the uuid and whose string value
is the chunk's bytes. -/
theorem terminal_c6_output_topic (t : Term) (h : t.topic = "term/" ++ t.uuid)
    (p : String) (now : Int) (pub : String → List Record → Option String) :
    (Write t p now none pub).pubs =
      [("term/" ++ t.uuid, [{ bn := t.uuid, n := "term", t := now, vs := p }])] := by
  have htopic : (resetCounter t t.resetTimeout).topic = t.topic := by
    unfold resetCounter
    split <;> rfl
  have huuid : (resetCounter t t.resetTimeout).uuid = t.uuid := by
    unfold resetCounter
    split <;> rfl
  simp only [Write]
  cases hp : pub (resetCounter t t.resetTimeout).topic
      (EncodeSenML (resetCounter t t.resetTimeout).uuid "term" p now) with
  | some e => simp [hp, EncodeSenML, htopic, huuid, h]
  | none => simp [hp, EncodeSenML, htopic, huuid, h]

theorem terminal_c6_output_topic_witness :
    (Write (mkTerm "u" (30 * second)) "hello" 7 none (fun _ _ => none)).pubs =
      [("term/" ++ "u", [{ bn := "u", n := "term", t := 7, vs := "hello" }])] :=
  terminal_c6_output_topic (mkTerm "u" (30 * second)) rfl "hello" 7 (fun _ _ => none)

/-- C8: when encoding or publishing of the output chunk fails, the
session's `Write` returns the failure as a non-nil error together with
a byte count equal to `len(p)` — the full input length is reported as
written even though delivery failed (`n := len(p)` is taken before
either fallible step, and both failure branches return `n, err`). -/
theorem terminal_c8_write_failure (t : Term) (p : String) (now : Int)
    (pub : String → List Record → Option String) (e : String) :
    ((Write t p now (some e) pub).n = p.length ∧
     (Write t p now (some e) pub).err = some e) ∧
    (pub t.topic (EncodeSenML t.uuid "term" p now) = some e →
      (Write t p now none pub).n = p.length ∧
      (Write t p now none pub).err = some e) := by
  have htopic : (resetCounter t t.resetTimeout).topic = t.topic := by
    unfold resetCounter
    split <;> rfl
  have huuid : (resetCounter t t.resetTimeout).uuid = t.uuid := by
    unfold resetCounter
    split <;> rfl
  refine ⟨⟨rfl, rfl⟩, ?_⟩
  intro hp
  have hp' : pub (resetCounter t t.resetTimeout).topic
      (EncodeSenML (resetCounter t t.resetTimeout).uuid "term" p now) = some e := by
    rw [htopic, huuid]
    exact hp
  constructor
  · simp only [Write]
    rw [hp']
  · simp only [Write]
    rw [hp']

theorem terminal_c8_write_failure_witness :
    ((Write (mkTerm "u" (30 * second)) "abc" 0 (some "encode failed")
        (fun _ _ => some "pub failed")).n = 3 ∧
     (Write (mkTerm "u" (30 * second)) "abc" 0 (some "encode failed")
        (fun _ _ => some "pub failed")).err = some "encode failed") ∧
    ((Write (mkTerm "u" (30 * second)) "abc" 0 none
        (fun _ _ => some "pub failed")).n = 3 ∧
     (Write (mkTerm "u" (30 * second)) "abc" 0 none
        (fun _ _ => some "pub failed")).err = some "pub failed") :=
  ⟨(terminal_c8_write_failure (mkTerm "u" (30 * second)) "abc" 0
      (fun _ _ => some "pub failed") "encode failed").1,
   (terminal_c8_write_failure (mkTerm "u" (30 * second)) "abc" 0
      (fun _ _ => some "pub failed") "pub failed").2 rfl⟩

theorem bootLoop_attempts_le (fetch : Nat → Except String DeviceConfig)
    (i r : Nat) : (bootLoop fetch i r).2.1 ≤ r := by
  induction r generalizing i with
  | zero => simp [bootLoop]
  | succ r ih =>
    simp only [bootLoop]
    cases fetch i with
    | ok dc => simp
    | error e =>
      by_cases hr : r = 0
      · simp [hr]
      · simp only [if_neg hr]
        rcases hb : bootLoop fetch (i + 1) r with ⟨res, a, s⟩
        have hih := ih (i + 1)
        rw [hb] at hih
        simp only [hb]
        simp only [Prod.snd, Prod.fst] at hih ⊢
        simp at hih ⊢
        omega

theorem bootLoop_all_fail (fetch : Nat → Except String DeviceConfig)
    (i r : Nat) (h : ∀ j, j < r → ∃ e, fetch (i + j) = .error e) :
    bootLoop fetch i r = (.exhausted, r, r) := by
  induction r generalizing i with
  | zero => rfl
  | succ r ih =>
    obtain ⟨e, he⟩ := h 0 (Nat.succ_pos r)
    simp only [Nat.add_zero] at he
    simp only [bootLoop, he]
    by_cases hr : r = 0
    · simp [hr]
    · simp only [if_neg hr]
      have hrec := ih (i + 1) (fun j hj => by
        obtain ⟨e', he'⟩ := h (j + 1) (Nat.succ_lt_succ hj)
        exact ⟨e', by rw [← he']; ring_nf⟩)
      rw [hrec]

theorem parseUint_lt_two_pow (s : String) (n : Nat)
    (h : parseUint s = some n) : n < 2 ^ 64 := by
  unfold parseUint at h
  split at h
  next =>
    have h' : (if List.foldl (fun acc c => acc * 10 + (c.toNat - 48)) 0 s.toList < 2 ^ 64
        then some (List.foldl (fun acc c => acc * 10 + (c.toNat - 48)) 0 s.toList)
        else none) = some n := h
    split at h'
    next hv =>
      simp only [Option.some.injEq] at h'
      omega
    next hv => simp at h'
  next => simp at h

theorem int64cast_le_zero_iff (n : Nat) (h64 : n < 2 ^ 64) :
    int64cast n ≤ 0 ↔ (n = 0 ∨ 2 ^ 63 ≤ n) := by
  have h64' : n < 18446744073709551616 := by
    have : (2 : Nat) ^ 64 = 18446744073709551616 := by norm_num
    omega
  unfold int64cast
  constructor
  · intro h
    split at h
    next hlt =>
      left
      have : (2 : Int) ^ 64 = 18446744073709551616 := by norm_num
      omega
    next hlt =>
      right
      have hlt' : 2 ^ 63 ≤ n := by
        have : (2 : Nat) ^ 63 = 9223372036854775808 := by norm_num
        omega
      exact hlt'
  · intro h
    split
    next hlt =>
      rcases h with h | h
      · simp [h]
      · exfalso
        have : (2 : Nat) ^ 63 = 9223372036854775808 := by norm_num
        omega
    next hlt =>
      have : (2 : Int) ^ 64 = 18446744073709551616 := by norm_num
      omega

theorem int64cast_toNat (n : Nat) (h : n < 2 ^ 63) : (int64cast n).toNat = n := by
  unfold int64cast
  rw [if_pos h]
  simp

theorem afterLoop_fetchAttempts (dc : DeviceConfig) (file : String)
    (se : Option String) (a s : Nat) :
    (afterLoop dc file se a s).fetchAttempts = a := by
  unfold afterLoop
  split
  · rfl
  · rfl

/-- Bootstrap parameters whose retry count parses to `2^63`: a valid
`uint64` that the `int(retries)` conversion in the loop bound wraps to
a negative number. -/
def cfgHugeRetries : Config :=
  { url := "http://bs", id := "i", key := "k", retries := "9223372036854775808", retryDelaySec := "10", skipTLS := true }

/-- C7: the claim fails on the code for large configured retry counts.
The loop bound is `for i := 0; i < int(retries); i++` and the
uint64-to-int conversion wraps: a parseable retry count of `2^63`
yields a negative bound, the loop body never runs, `dc` stays the
zero-valued `deviceConfig{}`, and `Bootstrap` returns the
malformed-entity error with zero fetch attempts, zero sleeps and no
"Retries exhausted" warning — not the claimed warning-plus-success
fallback to local configuration, even though the fetch never succeeds. -/
theorem bootstrap_c7_counterexample :
    (Bootstrap cfgHugeRetries "config.toml" (fun _ => Except.error "connection refused") none).err = some BootErr.malformedEntity ∧
    (Bootstrap cfgHugeRetries "config.toml" (fun _ => Except.error "connection refused") none).fetchAttempts = 0 ∧
    (Bootstrap cfgHugeRetries "config.toml" (fun _ => Except.error "connection refused") none).sleeps = 0 ∧
    (Bootstrap cfgHugeRetries "config.toml" (fun _ => Except.error "connection refused") none).exhaustedWarned = false ∧
    (Bootstrap cfgHugeRetries "config.toml" (fun _ => Except.error "connection refused") none).savedAgent = none := by
  refine ⟨rfl, rfl, rfl, rfl, rfl⟩

/-- C7 (amended): the bootstrap retrieval procedure calls `getConfig`
at most the parsed retry count many times, sleeping the fixed
configured delay after each failed attempt.  When the parsed retry
count is below `2^63` — so the `int(retries)` conversion in the loop
bound does not wrap — and every attempt fails, all retries are
consumed, the "Retries exhausted" warning is logged, and `Bootstrap`
returns success (a nil error), so the process continues with local
configuration.  For parsed retry counts of `2^63` or more the
conversion wraps negative: the loop never runs and `Bootstrap` returns
the malformed-entity error with no fetch, no sleep, no warning, and
nothing saved. -/
theorem bootstrap_c7_retry_policy (cfg : Config) (file : String)
    (fetch : Nat → Except String DeviceConfig) (saveAgentErr : Option String)
    (R : Nat) (hR : parseUint cfg.retries = some R) :
    (Bootstrap cfg file fetch saveAgentErr).fetchAttempts ≤ R ∧
    (0 < R → R < 2 ^ 63 → (parseUint cfg.retryDelaySec).isSome →
      (∀ j, j < R → ∃ e, fetch j = Except.error e) →
      (Bootstrap cfg file fetch saveAgentErr).err = none ∧
      (Bootstrap cfg file fetch saveAgentErr).exhaustedWarned = true ∧
      (Bootstrap cfg file fetch saveAgentErr).fetchAttempts = R ∧
      (Bootstrap cfg file fetch saveAgentErr).sleeps = R) ∧
    (2 ^ 63 ≤ R → (parseUint cfg.retryDelaySec).isSome →
      (Bootstrap cfg file fetch saveAgentErr).err = some BootErr.malformedEntity ∧
      (Bootstrap cfg file fetch saveAgentErr).fetchAttempts = 0 ∧
      (Bootstrap cfg file fetch saveAgentErr).sleeps = 0 ∧
      (Bootstrap cfg file fetch saveAgentErr).exhaustedWarned = false ∧
      (Bootstrap cfg file fetch saveAgentErr).savedAgent = none) := by
  have h64 := parseUint_lt_two_pow cfg.retries R hR
  refine ⟨?_, ?_, ?_⟩
  · simp only [Bootstrap, hR]
    by_cases h0 : R = 0
    · simp [h0]
    · simp only [if_neg h0]
      cases hd : parseUint cfg.retryDelaySec with
      | none => simp
      | some d =>
        simp only
        by_cases hcast : int64cast R ≤ 0
        · rw [if_pos hcast, afterLoop_fetchAttempts]
          exact Nat.zero_le R
        · rw [if_neg hcast]
          have hRlt : R < 2 ^ 63 := by
            by_contra hge
            push_neg at hge
            exact hcast ((int64cast_le_zero_iff R h64).mpr (Or.inr hge))
          rw [int64cast_toNat R hRlt]
          have hle := bootLoop_attempts_le fetch 0 R
          rcases hb : bootLoop fetch 0 R with ⟨res, a, s⟩
          rw [hb] at hle
          cases res with
          | exhausted => exact hle
          | success dc =>
            simp only
            rw [afterLoop_fetchAttempts]
            exact hle
  · intro hpos hRlt hdsome hfail
    have hloop : bootLoop fetch 0 R = (.exhausted, R, R) :=
      bootLoop_all_fail fetch 0 R (fun j hj => by simpa using hfail j hj)
    cases hd : parseUint cfg.retryDelaySec with
    | none => rw [hd] at hdsome; simp at hdsome
    | some d =>
      have h0 : ¬ R = 0 := by omega
      have hcast : ¬ int64cast R ≤ 0 := by
        rw [int64cast_le_zero_iff R h64]
        push_neg
        exact ⟨h0, by omega⟩
      have htn : (int64cast R).toNat = R := int64cast_toNat R hRlt
      simp [Bootstrap, hR, h0, hd, hcast, htn, hloop]
  · intro hge hdsome
    cases hd : parseUint cfg.retryDelaySec with
    | none => rw [hd] at hdsome; simp at hdsome
    | some d =>
      have h0 : ¬ R = 0 := by
        intro h
        rw [h] at hge
        norm_num at hge
      have hcast : int64cast R ≤ 0 := (int64cast_le_zero_iff R h64).mpr (Or.inr hge)
      simp [Bootstrap, hR, h0, hd, hcast, afterLoop, dcZero]

/-- Concrete bootstrap parameters used by witnesses: 3 retries,
10-second delay. -/
def cfgRetry3 : Config :=
  { url := "http://bs", id := "i", key := "k", retries := "3", retryDelaySec := "10", skipTLS := true }

theorem bootstrap_c7_retry_policy_witness :
    ((Bootstrap cfgRetry3 "config.toml" (fun _ => Except.error "connection refused") none).err = none ∧
     (Bootstrap cfgRetry3 "config.toml" (fun _ => Except.error "connection refused") none).exhaustedWarned = true ∧
     (Bootstrap cfgRetry3 "config.toml" (fun _ => Except.error "connection refused") none).fetchAttempts = 3 ∧
     (Bootstrap cfgRetry3 "config.toml" (fun _ => Except.error "connection refused") none).sleeps = 3) ∧
    (Bootstrap cfgHugeRetries "config.toml" (fun _ => Except.error "connection refused") none).fetchAttempts ≤ 9223372036854775808 ∧
    ((Bootstrap cfgHugeRetries "config.toml" (fun _ => Except.error "connection refused") none).err = some BootErr.malformedEntity ∧
     (Bootstrap cfgHugeRetries "config.toml" (fun _ => Except.error "connection refused") none).fetchAttempts = 0 ∧
     (Bootstrap cfgHugeRetries "config.toml" (fun _ => Except.error "connection refused") none).sleeps = 0 ∧
     (Bootstrap cfgHugeRetries "config.toml" (fun _ => Except.error "connection refused") none).exhaustedWarned = false ∧
     (Bootstrap cfgHugeRetries "config.toml" (fun _ => Except.error "connection refused") none).savedAgent = none) :=
  ⟨(bootstrap_c7_retry_policy cfgRetry3 "config.toml"
      (fun _ => Except.error "connection refused") none 3 (by decide)).2.1
    (by decide) (by decide) (by decide) (fun j _ => ⟨"connection refused", rfl⟩),
   (bootstrap_c7_retry_policy cfgHugeRetries "config.toml"
      (fun _ => Except.error "connection refused") none 9223372036854775808 (by decide)).1,
   (bootstrap_c7_retry_policy cfgHugeRetries "config.toml"
      (fun _ => Except.error "connection refused") none 9223372036854775808 (by decide)).2.2
    (by decide) (by decide)⟩

/-- C9: when the configured retry count string parses to exactly 0,
`Bootstrap` logs "No bootstrapping, environment variables will be used"
and returns success immediately: no `getConfig` fetch is performed, no
agent configuration is constructed or saved, and no export
configuration is saved. -/
theorem bootstrap_c9_zero_retries (cfg : Config) (file : String)
    (fetch : Nat → Except String DeviceConfig) (saveAgentErr : Option String)
    (h : parseUint cfg.retries = some 0) :
    (Bootstrap cfg file fetch saveAgentErr).err = none ∧
    (Bootstrap cfg file fetch saveAgentErr).fetchAttempts = 0 ∧
    (Bootstrap cfg file fetch saveAgentErr).savedAgent = none ∧
    (Bootstrap cfg file fetch saveAgentErr).exportSaved = false := by
  simp [Bootstrap, h]

/-- Concrete bootstrap parameters with a zero retry count, used by the
C9 witness. -/
def cfgRetry0 : Config :=
  { url := "http://bs", id := "i", key := "k", retries := "0", retryDelaySec := "10", skipTLS := true }

theorem bootstrap_c9_zero_retries_witness :
    (Bootstrap cfgRetry0 "config.toml" (fun _ => Except.error "unreachable") none).err = none ∧
    (Bootstrap cfgRetry0 "config.toml" (fun _ => Except.error "unreachable") none).fetchAttempts = 0 ∧
    (Bootstrap cfgRetry0 "config.toml" (fun _ => Except.error "unreachable") none).savedAgent = none ∧
    (Bootstrap cfgRetry0 "config.toml" (fun _ => Except.error "unreachable") none).exportSaved = false :=
  bootstrap_c9_zero_retries cfgRetry0 "config.toml"
    (fun _ => Except.error "unreachable") none (by decide)

/-- C10: if the retry loop ends with a successfully fetched device
configuration that contains fewer than two channels, `Bootstrap`
returns the malformed-entity error and persists nothing: neither
`agent.SaveConfig` nor the export-config save runs. -/
theorem bootstrap_c10_malformed (cfg : Config) (file : String)
    (fetch : Nat → Except String DeviceConfig) (saveAgentErr : Option String)
    (R : Nat) (dc : DeviceConfig)
    (hR : parseUint cfg.retries = some R) (hpos : 0 < R)
    (hdelay : (parseUint cfg.retryDelaySec).isSome)
    (hloop : (bootLoop fetch 0 R).1 = LoopRes.success dc)
    (hchan : dc.mainfluxChannels.length < 2) :
    (Bootstrap cfg file fetch saveAgentErr).err = some BootErr.malformedEntity ∧
    (Bootstrap cfg file fetch saveAgentErr).savedAgent = none ∧
    (Bootstrap cfg file fetch saveAgentErr).exportSaved = false := by
  have h64 := parseUint_lt_two_pow cfg.retries R hR
  have h0 : ¬ R = 0 := by omega
  cases hd : parseUint cfg.retryDelaySec with
  | none => rw [hd] at hdelay; simp at hdelay
  | some d =>
    by_cases hRlt : R < 2 ^ 63
    · have hcast : ¬ int64cast R ≤ 0 := by
        rw [int64cast_le_zero_iff R h64]
        push_neg
        exact ⟨h0, by omega⟩
      have htn : (int64cast R).toNat = R := int64cast_toNat R hRlt
      rcases hb : bootLoop fetch 0 R with ⟨res, a, s⟩
      rw [hb] at hloop
      simp only at hloop
      subst hloop
      simp [Bootstrap, hR, h0, hd, hcast, htn, hb, afterLoop, hchan]
    · have hge : 2 ^ 63 ≤ R := by omega
      have hcast : int64cast R ≤ 0 := (int64cast_le_zero_iff R h64).mpr (Or.inr hge)
      simp [Bootstrap, hR, h0, hd, hcast, afterLoop, dcZero]

/-- A device config with a single channel, used by the C10 witness. -/
def dcOneChannel : DeviceConfig :=
  { mainfluxID := "mid", mainfluxKey := "mkey", mainfluxChannels := [{ chanId := "c0", metaType := "control" }], clientKey := "", clientCert := "", caCert := "" }

theorem bootstrap_c10_malformed_witness :
    (Bootstrap cfgRetry3 "config.toml" (fun _ => Except.ok dcOneChannel) none).err =
      some BootErr.malformedEntity ∧
    (Bootstrap cfgRetry3 "config.toml" (fun _ => Except.ok dcOneChannel) none).savedAgent = none ∧
    (Bootstrap cfgRetry3 "config.toml" (fun _ => Except.ok dcOneChannel) none).exportSaved = false :=
  bootstrap_c10_malformed cfgRetry3 "config.toml" (fun _ => Except.ok dcOneChannel)
    none 3 dcOneChannel (by decide) (by decide) (by decide) rfl (by decide)
